import Mathlib

/-!
Shallow embedding of the speech-to-text backend service (main.py).

The service is a FastAPI application with one write endpoint
(POST /transcribe/) and two read endpoints (GET /transcripts/ and
GET /transcripts/id).  The embedding models:

- module-level startup configuration checks (ASSEMBLYAI_API_KEY,
  DATABASE_URL) and the table-creation function with its internal
  try/except;
- the persisted table row `Transcript` (id, filename, transcript_text,
  status, created_at) and the response model `TranscriptResponse`
  (text, status, transcript_id), exactly the fields declared in the
  source;
- the request handler `transcribe_audio` as a function of the provider
  result, with an explicit fault-injection parameter standing for an
  exception raised at one of the steps inside the try block, and an
  explicit boolean tracking whether the temporary file exists;
- the read accessors over an explicit store of rows.

Python-specific semantics that the claims depend on are embedded
faithfully: truthiness of optional strings (None and the empty string
are falsy), the `x or default` idiom, and the fact that the
HTTPException raised on a non-completed provider result is itself an
Exception, hence caught by the except-branch of the same handler and
re-wrapped (Starlette renders str of an HTTPException as
"code: detail").
-/

namespace SpeechToText

/-- Python truthiness for an optional string: None and "" are falsy. -/
def pyFalsy : Option String → Bool
  | none => true
  | some s => s = ""

/-- The Python idiom `x or dflt` on an Optional[str]: yields `dflt` when
`x` is None or the empty string, otherwise the string itself. -/
def pyOr (x : Option String) (dflt : String) : String :=
  match x with
  | none => dflt
  | some s => if s = "" then dflt else s

/-- str(e) for a Starlette/FastAPI HTTPException: "code: detail". -/
def httpExcStr (code : Nat) (detail : String) : String :=
  toString code ++ ": " ++ detail

/-- Module-level configuration checks of main.py: missing (falsy)
ASSEMBLYAI_API_KEY or DATABASE_URL raises a ValueError, which halts
startup. -/
def moduleInit (assemblyaiApiKey databaseUrl : Option String) :
    Except String Unit :=
  if pyFalsy assemblyaiApiKey then
    .error "ASSEMBLYAI_API_KEY environment variable not set. Please check your .env file."
  else if pyFalsy databaseUrl then
    .error "DATABASE_URL environment variable not set. Please check your .env file and ensure PostgreSQL is running."
  else
    .ok ()

/-- create_db_and_tables from main.py.  The argument is the outcome of
the external call SQLModel.metadata.create_all(engine); the body wraps
it in try/except, so an error from the call is turned into a log line
and never escapes.  The result is the list of printed log lines; the
function itself never fails, hence the result is always `.ok`. -/
def create_db_and_tables (createAll : Except String Unit) :
    Except String (List String) :=
  match createAll with
  | .ok _ =>
      .ok ["Attempting to create/verify database tables...",
           "Database tables created/checked successfully."]
  | .error e =>
      .ok ["Attempting to create/verify database tables...",
           "ERROR: Failed to create/verify database tables: " ++ e]

/-- Process startup: module-level config checks, then the startup event
handler on_startup, which calls create_db_and_tables. -/
def startup (assemblyaiApiKey databaseUrl : Option String)
    (createAll : Except String Unit) : Except String (List String) :=
  match moduleInit assemblyaiApiKey databaseUrl with
  | .error e => .error e
  | .ok _ => create_db_and_tables createAll

/-- The persisted table row, class Transcript of main.py: id (optional,
primary key, assigned by the store), filename, transcript_text, status,
created_at (timestamp abstracted as Nat). -/
structure Transcript where
  id : Option Nat
  filename : String
  transcript_text : String
  status : String
  created_at : Nat
deriving Repr, DecidableEq

/-- The declared column names of class Transcript, in declaration
order.  There is no sentiment column in the source. -/
def Transcript.fieldNames : List String :=
  ["id", "filename", "transcript_text", "status", "created_at"]

/-- A Transcript row as a field-name/rendered-value list, one entry per
declared column. -/
def Transcript.toFields (t : Transcript) : List (String × String) :=
  [("id", toString t.id), ("filename", t.filename),
   ("transcript_text", t.transcript_text), ("status", t.status),
   ("created_at", toString t.created_at)]

/-- The response model, class TranscriptResponse of main.py: exactly the
fields text, status, transcript_id. -/
structure TranscriptResponse where
  text : String
  status : String
  transcript_id : Nat
deriving Repr, DecidableEq

/-- The declared field names of class TranscriptResponse.  There is no
sentiment field in the source. -/
def TranscriptResponse.fieldNames : List String :=
  ["text", "status", "transcript_id"]

/-- A TranscriptResponse as a field-name/rendered-value list. -/
def TranscriptResponse.toFields (r : TranscriptResponse) :
    List (String × String) :=
  [("text", r.text), ("status", r.status),
   ("transcript_id", toString r.transcript_id)]

/-- The database: the rows of the one table, plus the next value of the
auto-increment primary-key sequence. -/
structure Store where
  rows : List Transcript
  nextId : Nat
deriving Repr, DecidableEq

/-- session.add + session.commit + session.refresh: the store assigns
the next primary-key id to the new row, appends it, and the assigned id
is read back (db_transcript.id). -/
def Store.insert (s : Store) (t : Transcript) : Nat × Store :=
  (s.nextId,
   { rows := s.rows ++ [{ t with id := some s.nextId }],
     nextId := s.nextId + 1 })

/-- A well-formed store: every assigned row id is below the next
sequence value (what a relational auto-increment key guarantees). -/
def Store.WF (s : Store) : Prop :=
  ∀ t ∈ s.rows, ∀ i, t.id = some i → i < s.nextId

/-- The provider result (assemblyai transcript object) as the handler
reads it: the terminal status (enum value string, None when absent),
the recognized text, and the optional error message. -/
structure AAIResult where
  status : Option String
  text : String
  error : Option String
deriving Repr, DecidableEq

/-- An exception injected at one of the steps inside the try block of
transcribe_audio, carrying str(e).  openFile: the open() call raised,
so the temporary file was never created.  writeBytes: the write raised
after the file was created.  providerCall: transcriber.transcribe
raised while the file existed.  dbCommit: persistence raised after
os.remove had already deleted the file. -/
inductive Fault where
  | openFile (msg : String)
  | writeBytes (msg : String)
  | providerCall (msg : String)
  | dbCommit (msg : String)
deriving Repr, DecidableEq

/-- What the caller of an endpoint receives: a 200 body or an HTTP
error with a status code and a detail message. -/
inductive HandlerOutcome where
  | ok (resp : TranscriptResponse)
  | httpError (statusCode : Nat) (detail : String)
deriving Repr, DecidableEq

/-- Whether the outcome is an error response. -/
def HandlerOutcome.isError : HandlerOutcome → Bool
  | .ok _ => false
  | .httpError _ _ => true

/-- Result of one run of the handler: the outcome delivered to the
caller, the store afterwards, and whether the temporary file still
exists on the filesystem. -/
structure HandlerResult where
  outcome : HandlerOutcome
  store : Store
  tempFileExists : Bool
deriving Repr, DecidableEq

/-- The try block of transcribe_audio (main.py lines 104-149): write the
upload to the temporary file, call the provider, os.remove the file,
classify the result, persist one row, then either return the response
(completed) or raise HTTPException(500, "Transcription failed: ...").
Returns the normal outcome or the escaping exception as str(e),
together with the store and whether the temporary file exists at the
moment the block is left. -/
def tryBody (filename : String) (result : AAIResult) (now : Nat)
    (fault : Option Fault) (store : Store) :
    Except String HandlerOutcome × Store × Bool :=
  match fault with
  | some (.openFile msg) => (.error msg, store, false)
  | some (.writeBytes msg) => (.error msg, store, true)
  | some (.providerCall msg) => (.error msg, store, true)
  | some (.dbCommit msg) => (.error msg, store, false)
  | none =>
    let transcript_text_to_save :=
      if result.status = some "completed" then result.text
      else pyOr result.error "Transcription failed"
    let status_to_save :=
      if result.status = some "completed" then "completed"
      else match result.status with
        | some s => s
        | none => "failed"
    let db_transcript : Transcript :=
      { id := none, filename := filename,
        transcript_text := transcript_text_to_save,
        status := status_to_save, created_at := now }
    let inserted := store.insert db_transcript
    if result.status = some "completed" then
      (.ok (.ok { text := transcript_text_to_save, status := "completed",
                  transcript_id := inserted.1 }),
       inserted.2, false)
    else
      (.error (httpExcStr 500
          ("Transcription failed: " ++ transcript_text_to_save)),
       inserted.2, false)

/-- transcribe_audio of main.py: the guard on the API key, the try
block, and the except-branch, which removes the temporary file if it
still exists and raises HTTPException(500, "An internal server error
occurred: " ++ str(e)).  The HTTPException raised inside the try block
for a non-completed result is an Exception, so it is caught here too. -/
def transcribe_audio (apiKey : Option String) (filename : String)
    (result : AAIResult) (now : Nat) (fault : Option Fault)
    (store : Store) : HandlerResult :=
  if pyFalsy apiKey then
    { outcome := .httpError 500
        "AssemblyAI API key not configured. Please set ASSEMBLYAI_API_KEY.",
      store := store, tempFileExists := false }
  else
    match tryBody filename result now fault store with
    | (.ok outcome, store2, fileEx) =>
        { outcome := outcome, store := store2, tempFileExists := fileEx }
    | (.error e, store2, _) =>
        { outcome := .httpError 500
            ("An internal server error occurred: " ++ e),
          store := store2, tempFileExists := false }

/-- GET /transcripts/: return all rows. -/
def get_all_transcripts (store : Store) : List Transcript := store.rows

/-- Result of GET /transcripts/id. -/
inductive FetchOutcome where
  | found (t : Transcript)
  | httpError (statusCode : Nat) (detail : String)
deriving Repr, DecidableEq

/-- get_transcript_by_id of main.py: primary-key lookup; 404 with
detail "Transcript not found" when absent.  The store is returned
unchanged (the handler only reads). -/
def get_transcript_by_id (store : Store) (transcript_id : Nat) :
    FetchOutcome × Store :=
  match store.rows.find? (fun t => t.id == some transcript_id) with
  | some t => (.found t, store)
  | none => (.httpError 404 "Transcript not found", store)

/-! ### Shared helper lemmas -/

/-- Closed form of the handler on the completed path with no injected
exception. -/
theorem transcribe_ok (apiKey : Option String) (filename : String)
    (result : AAIResult) (now : Nat) (store : Store)
    (hkey : pyFalsy apiKey = false)
    (hc : result.status = some "completed") :
    transcribe_audio apiKey filename result now none store =
      { outcome := .ok { text := result.text, status := "completed",
                         transcript_id := store.nextId },
        store := { rows := store.rows ++
                     [{ id := some store.nextId, filename := filename,
                        transcript_text := result.text, status := "completed",
                        created_at := now }],
                   nextId := store.nextId + 1 },
        tempFileExists := false } := by
  simp [transcribe_audio, tryBody, hkey, hc, Store.insert]

/-- Closed form of the handler on the non-completed path with no
injected exception. -/
theorem transcribe_fail (apiKey : Option String) (filename : String)
    (result : AAIResult) (now : Nat) (store : Store)
    (hkey : pyFalsy apiKey = false)
    (hnc : result.status ≠ some "completed") :
    transcribe_audio apiKey filename result now none store =
      { outcome := .httpError 500
          ("An internal server error occurred: " ++ httpExcStr 500
            ("Transcription failed: " ++
              pyOr result.error "Transcription failed")),
        store := { rows := store.rows ++
                     [{ id := some store.nextId, filename := filename,
                        transcript_text := pyOr result.error "Transcription failed",
                        status := (match result.status with
                                   | some s => s
                                   | none => "failed"),
                        created_at := now }],
                   nextId := store.nextId + 1 },
        tempFileExists := false } := by
  simp [transcribe_audio, tryBody, hkey, hnc, Store.insert]

/-- find? skips a prefix on which the predicate is false. -/
theorem find_skip (l₁ l₂ : List Transcript) (p : Transcript → Bool)
    (h : ∀ t ∈ l₁, p t = false) :
    (l₁ ++ l₂).find? p = l₂.find? p := by
  induction l₁ with
  | nil => rfl
  | cons a l ih =>
    have ha : p a = false := h a (List.mem_cons_self a l)
    rw [List.cons_append, List.find?_cons_of_neg _ (by simp [ha])]
    exact ih (fun t ht => h t (List.mem_cons_of_mem a ht))

/-- Prepending the internal-error wrapper changes the string. -/
theorem wrap_ne (s : String) :
    "An internal server error occurred: " ++ httpExcStr 500 s ≠ s := by
  intro h
  have h1 := congrArg String.length h
  simp only [httpExcStr] at h1
  rw [String.length_append, String.length_append, String.length_append] at h1
  have e1 : ("An internal server error occurred: ").length = 35 := rfl
  have e2 : (toString (500 : Nat)).length = 3 := rfl
  have e3 : (": ").length = 2 := rfl
  rw [e1, e2, e3] at h1
  omega

/-! ### Claims -/

/-- C1, counterexample: at a concrete upload whose provider result is
completed, the success response of the handler is exactly the three
declared fields text, status, transcript_id, and its field list
contains no sentiment entry, refuting the claim that the success
response contains a sentiment label. -/
theorem C1_counterexample :
    (transcribe_audio (some "key") "a.wav"
        { status := some "completed", text := "hello", error := none }
        0 none { rows := [], nextId := 1 }).outcome =
      .ok { text := "hello", status := "completed", transcript_id := 1 } ∧
    (TranscriptResponse.toFields
        { text := "hello", status := "completed", transcript_id := 1 }).map
      Prod.fst = TranscriptResponse.fieldNames ∧
    TranscriptResponse.fieldNames.contains "sentiment" = false := by
  refine ⟨by decide, rfl, rfl⟩

/-- C1, amended: for every upload whose provider result has status
completed (and no injected exception), the success response contains
exactly the transcript text, the status string "completed", and the
persisted record assigned identifier; the response has no sentiment
field. -/
theorem C1_success_response (apiKey : Option String) (filename : String)
    (result : AAIResult) (now : Nat) (store : Store)
    (hkey : pyFalsy apiKey = false)
    (hc : result.status = some "completed") :
    (transcribe_audio apiKey filename result now none store).outcome =
      .ok { text := result.text, status := "completed",
            transcript_id := store.nextId } ∧
    TranscriptResponse.toFields
        { text := result.text, status := "completed",
          transcript_id := store.nextId } =
      [("text", result.text), ("status", "completed"),
       ("transcript_id", toString store.nextId)] := by
  rw [transcribe_ok apiKey filename result now store hkey hc]
  exact ⟨rfl, rfl⟩

/-- Witness for C1_success_response at a concrete completed upload. -/
theorem C1_success_response_witness :
    (transcribe_audio (some "key") "b.wav"
        { status := some "completed", text := "hi", error := none }
        3 none { rows := [], nextId := 5 }).outcome =
      .ok { text := "hi", status := "completed", transcript_id := 5 } ∧
    TranscriptResponse.toFields
        { text := "hi", status := "completed", transcript_id := 5 } =
      [("text", "hi"), ("status", "completed"),
       ("transcript_id", toString (5 : Nat))] :=
  C1_success_response (some "key") "b.wav"
    { status := some "completed", text := "hi", error := none } 3
    { rows := [], nextId := 5 } (by decide) rfl

/-- C2, counterexample: a concrete upload with a non-completed provider
result persists exactly one record; its status is "error" (not
"completed") and its field list contains no sentiment entry, so its
sentiment is not forced to "N/A" as claimed: the persisted row has no
sentiment field at all. -/
theorem C2_counterexample :
    ((transcribe_audio (some "key") "a.wav"
        { status := some "error", text := "", error := some "boom" }
        0 none { rows := [], nextId := 1 }).store.rows.map
      (fun t => (t.status, (t.toFields.map Prod.fst).contains "sentiment")))
      = [("error", false)] := by decide

/-- C2, amended: every record persisted by the handler has exactly the
declared columns id, filename, transcript_text, status, created_at;
there is no sentiment column, so no sentiment value ("N/A" or
otherwise) is stored for any record, completed or not. -/
theorem C2_no_sentiment_field (apiKey : Option String) (filename : String)
    (result : AAIResult) (now : Nat) (fault : Option Fault) (store : Store)
    (t : Transcript)
    (_ht : t ∈ (transcribe_audio apiKey filename result now fault
        store).store.rows) :
    t.toFields.map Prod.fst = Transcript.fieldNames ∧
    Transcript.fieldNames.contains "sentiment" = false :=
  ⟨rfl, rfl⟩

/-- Witness for C2_no_sentiment_field at the record persisted by a
concrete failed upload. -/
theorem C2_no_sentiment_field_witness :
    (Transcript.toFields
        { id := some 1, filename := "a.wav", transcript_text := "boom",
          status := "error", created_at := 0 }).map Prod.fst =
      Transcript.fieldNames ∧
    Transcript.fieldNames.contains "sentiment" = false :=
  C2_no_sentiment_field (some "key") "a.wav"
    { status := some "error", text := "", error := some "boom" } 0 none
    { rows := [], nextId := 1 }
    { id := some 1, filename := "a.wav", transcript_text := "boom",
      status := "error", created_at := 0 }
    (by decide)

/-- C3: with no injected exception the handler persists exactly one new
record whether or not the provider result is completed, and whenever
the result is not completed the caller receives an error response while
the new record is already in the store. -/
theorem C3_persist_once_and_report (apiKey : Option String)
    (filename : String) (result : AAIResult) (now : Nat) (store : Store)
    (hkey : pyFalsy apiKey = false) :
    (transcribe_audio apiKey filename result now none
        store).store.rows.length = store.rows.length + 1 ∧
    (result.status ≠ some "completed" →
      (transcribe_audio apiKey filename result now none
        store).outcome.isError = true) := by
  by_cases hc : result.status = some "completed"
  · rw [transcribe_ok apiKey filename result now store hkey hc]
    exact ⟨by simp, fun h => absurd hc h⟩
  · rw [transcribe_fail apiKey filename result now store hkey hc]
    exact ⟨by simp, fun _ => rfl⟩

/-- Witness for C3_persist_once_and_report at a concrete failed
upload. -/
theorem C3_persist_once_and_report_witness :
    (transcribe_audio (some "key") "a.wav"
        { status := some "error", text := "", error := none } 0 none
        { rows := [], nextId := 1 }).store.rows.length =
      ({ rows := [], nextId := 1 } : Store).rows.length + 1 ∧
    ((some "error" : Option String) ≠ some "completed" →
      (transcribe_audio (some "key") "a.wav"
        { status := some "error", text := "", error := none } 0 none
        { rows := [], nextId := 1 }).outcome.isError = true) :=
  C3_persist_once_and_report (some "key") "a.wav"
    { status := some "error", text := "", error := none } 0
    { rows := [], nextId := 1 } (by decide)

/-- C4: on every exit path of the handler — normal return,
provider-failure response, or an exception injected at the file open,
the file write, the provider invocation, or persistence — the temporary
file no longer exists when the handler returns. -/
theorem C4_temp_file_absent (apiKey : Option String) (filename : String)
    (result : AAIResult) (now : Nat) (fault : Option Fault)
    (store : Store) :
    (transcribe_audio apiKey filename result now fault
      store).tempFileExists = false := by
  cases hkey : pyFalsy apiKey with
  | true => simp [transcribe_audio, hkey]
  | false =>
    rcases fault with _ | f
    · by_cases hc : result.status = some "completed" <;>
        simp [transcribe_audio, tryBody, hkey, hc, Store.insert]
    · rcases f with m | m | m | m <;>
        simp [transcribe_audio, tryBody, hkey]

/-- C5: for every non-completed provider result (no injected
exception), the persisted record transcript_text equals the provider
error message when it is present and non-empty, and the generic string
"Transcription failed" when the message is absent (None; an empty
message is falsy in Python and is treated as absent); the record status
equals the provider status string when present, and "failed" when the
status is absent. -/
theorem C5_failure_record (apiKey : Option String) (filename : String)
    (result : AAIResult) (now : Nat) (store : Store)
    (hkey : pyFalsy apiKey = false)
    (hnc : result.status ≠ some "completed") :
    ∃ t : Transcript,
      (transcribe_audio apiKey filename result now none store).store.rows
        = store.rows ++ [t] ∧
      (result.error = none → t.transcript_text = "Transcription failed") ∧
      (result.error = some "" →
        t.transcript_text = "Transcription failed") ∧
      (∀ m, result.error = some m → m ≠ "" → t.transcript_text = m) ∧
      (∀ s, result.status = some s → t.status = s) ∧
      (result.status = none → t.status = "failed") := by
  rw [transcribe_fail apiKey filename result now store hkey hnc]
  refine ⟨_, rfl, ?_, ?_, ?_, ?_, ?_⟩
  · intro h; simp [pyOr, h]
  · intro h; simp [pyOr, h]
  · intro m hm hne; simp [pyOr, hm, hne]
  · intro s hs; simp [hs]
  · intro h; simp [h]

/-- Witness for C5_failure_record at a concrete failed upload carrying
an error message. -/
theorem C5_failure_record_witness :
    ∃ t : Transcript,
      (transcribe_audio (some "key") "a.wav"
          { status := some "error", text := "", error := some "oops" }
          0 none { rows := [], nextId := 1 }).store.rows
        = ({ rows := [], nextId := 1 } : Store).rows ++ [t] ∧
      ((some "oops" : Option String) = none →
        t.transcript_text = "Transcription failed") ∧
      ((some "oops" : Option String) = some "" →
        t.transcript_text = "Transcription failed") ∧
      (∀ m, (some "oops" : Option String) = some m → m ≠ "" →
        t.transcript_text = m) ∧
      (∀ s, (some "error" : Option String) = some s → t.status = s) ∧
      ((some "error" : Option String) = none → t.status = "failed") :=
  C5_failure_record (some "key") "a.wav"
    { status := some "error", text := "", error := some "oops" } 0
    { rows := [], nextId := 1 } (by decide) (by decide)

/-- C6: round trip — the record persisted by a POST /transcribe/
request whose provider result is completed is retrievable unchanged via
GET /transcripts/id using the transcript_id carried in the success
response, and the store is left unchanged by the read. -/
theorem C6_roundtrip (apiKey : Option String) (filename : String)
    (result : AAIResult) (now : Nat) (store : Store)
    (r : TranscriptResponse)
    (hwf : Store.WF store)
    (hkey : pyFalsy apiKey = false)
    (hc : result.status = some "completed")
    (hr : (transcribe_audio apiKey filename result now none store).outcome
      = .ok r) :
    (transcribe_audio apiKey filename result now none store).store.rows
      = store.rows ++ [{ id := some store.nextId, filename := filename,
                         transcript_text := result.text,
                         status := "completed", created_at := now }] ∧
    get_transcript_by_id
        (transcribe_audio apiKey filename result now none store).store
        r.transcript_id =
      (.found { id := some store.nextId, filename := filename,
                transcript_text := result.text, status := "completed",
                created_at := now },
       (transcribe_audio apiKey filename result now none store).store) := by
  rw [transcribe_ok apiKey filename result now store hkey hc] at hr ⊢
  simp only [HandlerOutcome.ok.injEq] at hr
  subst hr
  refine ⟨rfl, ?_⟩
  have hall : ∀ t ∈ store.rows, (t.id == some store.nextId) = false := by
    intro t ht
    cases hid : t.id with
    | none => rfl
    | some i =>
      have hlt := hwf t ht i hid
      rw [beq_eq_false_iff_ne]
      simp only [ne_eq, Option.some.injEq]
      omega
  unfold get_transcript_by_id
  rw [find_skip _ _ _ hall,
    List.find?_cons_of_pos _ (by simp)]

/-- Witness for C6_roundtrip at a concrete completed upload into an
empty store. -/
theorem C6_roundtrip_witness :
    (transcribe_audio (some "key") "c.wav"
        { status := some "completed", text := "hi", error := none }
        7 none { rows := [], nextId := 1 }).store.rows
      = ({ rows := [], nextId := 1 } : Store).rows ++
          [{ id := some 1, filename := "c.wav", transcript_text := "hi",
             status := "completed", created_at := 7 }] ∧
    get_transcript_by_id
        (transcribe_audio (some "key") "c.wav"
          { status := some "completed", text := "hi", error := none }
          7 none { rows := [], nextId := 1 }).store
        ({ text := "hi", status := "completed",
           transcript_id := 1 } : TranscriptResponse).transcript_id =
      (.found { id := some 1, filename := "c.wav",
                transcript_text := "hi", status := "completed",
                created_at := 7 },
       (transcribe_audio (some "key") "c.wav"
          { status := some "completed", text := "hi", error := none }
          7 none { rows := [], nextId := 1 }).store) :=
  C6_roundtrip (some "key") "c.wav"
    { status := some "completed", text := "hi", error := none } 7
    { rows := [], nextId := 1 }
    { text := "hi", status := "completed", transcript_id := 1 }
    (by intro t ht; simp at ht) (by decide) rfl (by decide)

/-- C7: at startup a missing (falsy) provider API key or database
connection string raises and prevents startup, whereas a failure of the
table-creation call is caught and logged inside create_db_and_tables
and startup still succeeds. -/
theorem C7_startup_config (key url : Option String)
    (createAll : Except String Unit) :
    (pyFalsy key = true →
      startup key url createAll =
        .error "ASSEMBLYAI_API_KEY environment variable not set. Please check your .env file.") ∧
    (pyFalsy key = false → pyFalsy url = true →
      startup key url createAll =
        .error "DATABASE_URL environment variable not set. Please check your .env file and ensure PostgreSQL is running.") ∧
    (pyFalsy key = false → pyFalsy url = false →
      ∃ logs, startup key url createAll = .ok logs) := by
  refine ⟨fun hk => ?_, fun hk hu => ?_, fun hk hu => ?_⟩
  · simp [startup, moduleInit, hk]
  · simp [startup, moduleInit, hk, hu]
  · cases createAll with
    | ok u =>
        exact ⟨["Attempting to create/verify database tables...",
                "Database tables created/checked successfully."],
          by simp [startup, moduleInit, hk, hu, create_db_and_tables]⟩
    | error e =>
        exact ⟨["Attempting to create/verify database tables...",
                "ERROR: Failed to create/verify database tables: " ++ e],
          by simp [startup, moduleInit, hk, hu, create_db_and_tables]⟩

/-- Witness for C7_startup_config: a missing key is fatal, a missing
connection string is fatal, and a failing table creation is not. -/
theorem C7_startup_config_witness :
    startup none (some "postgresql://db") (.ok ()) =
      .error "ASSEMBLYAI_API_KEY environment variable not set. Please check your .env file." ∧
    startup (some "k") none (.ok ()) =
      .error "DATABASE_URL environment variable not set. Please check your .env file and ensure PostgreSQL is running." ∧
    (∃ logs, startup (some "k") (some "postgresql://db")
      (.error "boom") = .ok logs) :=
  ⟨(C7_startup_config none (some "postgresql://db") (.ok ())).1 rfl,
   (C7_startup_config (some "k") none (.ok ())).2.1 (by decide) rfl,
   (C7_startup_config (some "k") (some "postgresql://db")
      (.error "boom")).2.2 (by decide) (by decide)⟩

/-- C8: fetching an id with no persisted record yields exactly the 404
response with detail "Transcript not found" (not an internal error) and
leaves the store unchanged; fetching an id that some persisted record
carries (uniquely, as the primary key guarantees) returns that
record, also leaving the store unchanged. -/
theorem C8_fetch_by_id (store : Store) (tid : Nat) :
    ((∀ t ∈ store.rows, t.id ≠ some tid) →
      get_transcript_by_id store tid =
        (.httpError 404 "Transcript not found", store)) ∧
    (∀ t ∈ store.rows, t.id = some tid →
      (∀ u ∈ store.rows, u.id = some tid → u = t) →
      get_transcript_by_id store tid = (.found t, store)) := by
  constructor
  · intro h
    have hnone : store.rows.find? (fun t => t.id == some tid) = none := by
      rw [List.find?_eq_none]
      intro t ht
      simp only [beq_iff_eq]
      exact h t ht
    simp [get_transcript_by_id, hnone]
  · intro t ht hid huniq
    have hex : (store.rows.find? (fun u => u.id == some tid)).isSome := by
      rw [List.find?_isSome]
      exact ⟨t, ht, by simp [hid]⟩
    obtain ⟨u, hu⟩ := Option.isSome_iff_exists.mp hex
    have hum := List.mem_of_find?_eq_some hu
    have hup := List.find?_some hu
    have hut : u = t := huniq u hum (by simpa using hup)
    rw [hut] at hu
    simp [get_transcript_by_id, hu]

/-- Witness for C8_fetch_by_id: id 1 is missing from the empty store
and present in a one-row store. -/
theorem C8_fetch_by_id_witness :
    get_transcript_by_id { rows := [], nextId := 1 } 1 =
      (.httpError 404 "Transcript not found",
       ({ rows := [], nextId := 1 } : Store)) ∧
    get_transcript_by_id
        { rows := [{ id := some 1, filename := "a.wav",
                     transcript_text := "x", status := "completed",
                     created_at := 0 }], nextId := 2 } 1 =
      (.found { id := some 1, filename := "a.wav",
                transcript_text := "x", status := "completed",
                created_at := 0 },
       ({ rows := [{ id := some 1, filename := "a.wav",
                     transcript_text := "x", status := "completed",
                     created_at := 0 }], nextId := 2 } : Store)) :=
  ⟨(C8_fetch_by_id { rows := [], nextId := 1 } 1).1
      (by intro t ht; simp at ht),
   (C8_fetch_by_id
      { rows := [{ id := some 1, filename := "a.wav",
                   transcript_text := "x", status := "completed",
                   created_at := 0 }], nextId := 2 } 1).2
      { id := some 1, filename := "a.wav", transcript_text := "x",
        status := "completed", created_at := 0 }
      (by simp) rfl
      (by intro u hu _; simpa using hu)⟩

/-- C9: for a non-completed provider result the HTTPException built in
the else-branch of the try block is itself caught by the generic
except-branch of the same handler, so the caller receives the wrapped
internal-error detail (which embeds the transcription-failure
description through str of the inner exception), and never the
unwrapped provider-failure detail built first. -/
theorem C9_wrapped_error (apiKey : Option String) (filename : String)
    (result : AAIResult) (now : Nat) (store : Store)
    (hkey : pyFalsy apiKey = false)
    (hnc : result.status ≠ some "completed") :
    (transcribe_audio apiKey filename result now none store).outcome =
      .httpError 500 ("An internal server error occurred: " ++
        httpExcStr 500 ("Transcription failed: " ++
          pyOr result.error "Transcription failed")) ∧
    (transcribe_audio apiKey filename result now none store).outcome ≠
      .httpError 500 ("Transcription failed: " ++
        pyOr result.error "Transcription failed") := by
  rw [transcribe_fail apiKey filename result now store hkey hnc]
  refine ⟨rfl, ?_⟩
  intro h
  simp only [HandlerOutcome.httpError.injEq] at h
  exact wrap_ne _ h.2

/-- Witness for C9_wrapped_error at a concrete failed upload. -/
theorem C9_wrapped_error_witness :
    (transcribe_audio (some "key") "a.wav"
        { status := some "error", text := "", error := some "oops" }
        0 none { rows := [], nextId := 1 }).outcome =
      .httpError 500 ("An internal server error occurred: " ++
        httpExcStr 500 ("Transcription failed: " ++
          pyOr (some "oops") "Transcription failed")) ∧
    (transcribe_audio (some "key") "a.wav"
        { status := some "error", text := "", error := some "oops" }
        0 none { rows := [], nextId := 1 }).outcome ≠
      .httpError 500 ("Transcription failed: " ++
        pyOr (some "oops") "Transcription failed") :=
  C9_wrapped_error (some "key") "a.wav"
    { status := some "error", text := "", error := some "oops" } 0
    { rows := [], nextId := 1 } (by decide) (by decide)

/-- C10: the error response for a non-completed provider result does
not depend on the identifier the store assigns (changing the id
sequence value changes nothing in the outcome), even though the failed
record is persisted with that identifier before the response is
produced; the persisted failed record is reachable through the
list-all-records accessor. -/
theorem C10_error_has_no_id (apiKey : Option String) (filename : String)
    (result : AAIResult) (now : Nat) (store : Store) (n : Nat)
    (hkey : pyFalsy apiKey = false)
    (hnc : result.status ≠ some "completed") :
    (transcribe_audio apiKey filename result now none store).outcome =
      (transcribe_audio apiKey filename result now none
        { rows := store.rows, nextId := n }).outcome ∧
    ∃ t : Transcript,
      (transcribe_audio apiKey filename result now none store).store.rows
        = store.rows ++ [t] ∧
      t.id = some store.nextId ∧
      t ∈ get_all_transcripts
        (transcribe_audio apiKey filename result now none store).store := by
  rw [transcribe_fail apiKey filename result now store hkey hnc,
    transcribe_fail apiKey filename result now
      { rows := store.rows, nextId := n } hkey hnc]
  exact ⟨rfl, _, rfl, rfl, by simp [get_all_transcripts]⟩

/-- Witness for C10_error_has_no_id at a concrete failed upload,
varying the id sequence from 1 to 42. -/
theorem C10_error_has_no_id_witness :
    (transcribe_audio (some "key") "a.wav"
        { status := some "error", text := "", error := some "oops" }
        0 none { rows := [], nextId := 1 }).outcome =
      (transcribe_audio (some "key") "a.wav"
        { status := some "error", text := "", error := some "oops" }
        0 none { rows := ({ rows := [], nextId := 1 } : Store).rows,
                 nextId := 42 }).outcome ∧
    ∃ t : Transcript,
      (transcribe_audio (some "key") "a.wav"
          { status := some "error", text := "", error := some "oops" }
          0 none { rows := [], nextId := 1 }).store.rows
        = ({ rows := [], nextId := 1 } : Store).rows ++ [t] ∧
      t.id = some ({ rows := [], nextId := 1 } : Store).nextId ∧
      t ∈ get_all_transcripts
        (transcribe_audio (some "key") "a.wav"
          { status := some "error", text := "", error := some "oops" }
          0 none { rows := [], nextId := 1 }).store :=
  C10_error_has_no_id (some "key") "a.wav"
    { status := some "error", text := "", error := some "oops" } 0
    { rows := [], nextId := 1 } 42 (by decide) (by decide)

end SpeechToText
